import Mathlib

/-!
Shallow embedding of the Aurora construct helpers of
`packages/aurora/src/util/aurora-helpers.ts` and
`packages/aurora/src/constructs/aurora-mysql-cluster.ts`.

TypeScript strings are Lean `String`s, optional fields are `Option`s,
numbers that the code compares with `>` are `Int`s, and code that throws
is modelled with `Except String`.  Construct creation is modelled as a
trace of events so that ordering of side effects (construct added,
ingress rule added, CIDR validated) is observable.
-/

namespace Aurora

/-- Does the list `s` start with the list `p`?  Helper for the embedding of
JavaScript `String.prototype.includes`. -/
def listStarts : List Char → List Char → Bool
  | _, [] => true
  | [], _ :: _ => false
  | c :: cs, p :: ps => c = p && listStarts cs ps

/-- Does the pattern `p` occur contiguously inside `s`?  Helper for the
embedding of JavaScript `String.prototype.includes`. -/
def listHasSeg (p : List Char) : List Char → Bool
  | [] => listStarts [] p
  | c :: cs => listStarts (c :: cs) p || listHasSeg p cs

/-- Embedding of JavaScript `s.includes(p)`: `p` occurs as a contiguous
substring of `s`. -/
def strIncludes (s p : String) : Bool :=
  listHasSeg p.data s.data

/-- Embedding of the JavaScript `||` operator at string type: a string is
falsy exactly when it is empty, and `undefined` is falsy. -/
def jsOrString (x : Option String) (d : String) : String :=
  match x with
  | some s => if s = "" then d else s
  | none => d

/-- Embedding of `.replace(/\./g, '-')`: every literal dot becomes a
hyphen (the regex is a single character with the global flag, hence a
character-wise map). -/
def replaceDots (s : String) : String :=
  ⟨s.data.map (fun c => if c = '.' then '-' else c)⟩

/-- Base-10 value of a digit list, embedding `parseInt(digits, 10)`. -/
def parseDigits (ds : List Char) : Nat :=
  ds.foldl (fun a c => a * 10 + (c.toNat - 48)) 0

/-- The `engineVersion` object of a CDK `IClusterEngine`: only its
optional `fullVersion` string is read by the helpers. -/
structure EngineVersionInfo where
  fullVersion : Option String
deriving DecidableEq, Repr

/-- The part of a CDK `IClusterEngine` read by the helpers: the
`engineType` string and the optional `engineVersion` object. -/
structure ClusterEngine where
  engineType : String
  engineVersion : Option EngineVersionInfo
deriving DecidableEq, Repr

/-- Embedding of the regex match `/^(\d+)\.(\d+)/`: leading digit run,
then a literal dot, then a second digit run; returns the two captured
groups.  The leading `\d+` is forced maximal because the character after
it must be a dot; the second `\d+` is greedy, hence maximal. -/
def matchMajorMinor (s : String) : Option (String × String) :=
  let d1 := s.data.takeWhile (fun c => c.isDigit)
  let rest := s.data.dropWhile (fun c => c.isDigit)
  if d1.isEmpty then none
  else
    match rest with
    | '.' :: rest2 =>
      let d2 := rest2.takeWhile (fun c => c.isDigit)
      if d2.isEmpty then none else some (⟨d1⟩, ⟨d2⟩)
    | _ => none

/-- Embedding of `getEngineVersion`
(`aurora-helpers.ts`): extract `"{major}-{minor}"` from
`engine.engineVersion?.fullVersion`, or `"unknown"`. -/
def getEngineVersion (engine : ClusterEngine) : String :=
  match engine.engineVersion.bind (fun v => v.fullVersion) with
  | none => "unknown"
  | some v =>
    match matchMajorMinor v with
    | some (maj, minr) => maj ++ "-" ++ minr
    | none => "unknown"

/-- Embedding of `getEngineFamily` (`aurora-helpers.ts`).  The source's
`engine.engineType || ''` is the identity on a string value, since the
only falsy string is `''` itself. -/
def getEngineFamily (engine : ClusterEngine) : String :=
  let engineType := engine.engineType
  if strIncludes engineType "aurora-mysql" then "aurora-mysql"
  else if strIncludes engineType "aurora-postgresql" || strIncludes engineType "aurora-postgres" then
    "aurora-postgresql"
  else engineType

/-- The trailing `/\d+` of a CIDR string, embedding the regex match
`/\/(\d+)$/`: the maximal trailing digit run, provided it is nonempty and
preceded by a slash. -/
def cidrSuffixDigits (cidr : String) : Option (List Char) :=
  let rev := cidr.data.reverse
  let ds := rev.takeWhile (fun c => c.isDigit)
  let rest := rev.dropWhile (fun c => c.isDigit)
  if ds.isEmpty then none
  else
    match rest with
    | '/' :: _ => some ds.reverse
    | _ => none

/-- Embedding of `validateCidr` (`aurora-helpers.ts`): reject exactly
`0.0.0.0/0`, then reject a trailing `/N` whose numeric value is below
16. -/
def validateCidr (cidr : String) : Except String Unit :=
  if cidr = "0.0.0.0/0" then
    Except.error "Security violation: CIDR 0.0.0.0/0 (open to the internet) is not allowed for RDS security groups"
  else
    match cidrSuffixDigits cidr with
    | some ds =>
      let p := parseDigits ds
      if p < 16 then
        Except.error ("Security violation: CIDR " ++ cidr ++ " has prefix /" ++ toString p ++
          " which is less restrictive than /16. Only /16 or more restrictive (higher number) CIDRs are allowed.")
      else Except.ok ()
    | none => Except.ok ()

/-- CDK `InstanceType`: opaque to the helpers, only passed through;
modelled by its name. -/
structure InstanceType where
  name : String
deriving DecidableEq, Repr

/-- `ParameterGroupConfig` (`aurora-cluster-base.ts`): optional name,
engine, description and parameter map.  Every field is optional at the
use sites (`props.clusterParameters?.x`). -/
structure ParameterGroupConfig where
  name : Option String := none
  engine : Option ClusterEngine := none
  description : Option String := none
  parameters : Option (List (String × String)) := none
deriving DecidableEq, Repr

/-- `ReaderConfig` (`aurora-cluster-base.ts`). -/
structure ReaderConfig where
  readerInstanceCount : Option Int := none
  instanceType : Option InstanceType := none
deriving DecidableEq, Repr

/-- The CDK `RemovalPolicy` values used by the constructs. -/
inductive RemovalPolicy where
  | destroy
  | retain
  | snapshot
deriving DecidableEq, Repr

/-- The CDK `DatabaseInsightsMode` values. -/
inductive DatabaseInsightsMode where
  | standard
  | advanced
deriving DecidableEq, Repr

/-- `AuroraClusterBaseConfig` (`aurora-cluster-base.ts`), restricted to
the fields the helpers and the MySQL construct read.  `existingSecret`
and durations are modelled by presence and value only. -/
structure ClusterProps where
  engine : ClusterEngine
  clusterName : String
  vpcId : String := ""
  writerInstanceType : InstanceType := ⟨""⟩
  subnetIds : List String := []
  databaseName : String := ""
  readersConfig : Option ReaderConfig := none
  clusterParameters : Option ParameterGroupConfig := none
  instanceParameters : Option ParameterGroupConfig := none
  cloudwatchLogsExports : Option (List String) := none
  databaseInsightsMode : Option DatabaseInsightsMode := none
  enableClusterLevelEnhancedMonitoring : Option Bool := none
  monitoringIntervalSeconds : Option Nat := none
  iamAuthentication : Option Bool := none
  removalPolicy : Option RemovalPolicy := none
  deletionProtection : Option Bool := none
  storageEncryptionKey : Option String := none
  createKmsKey : Option Bool := none
  snapshotIdentifier : Option String := none
  secretName : Option String := none
  existingSecret : Option String := none
  allowedInboundCidrs : Option (List String) := none
deriving DecidableEq, Repr

/-- The `ParameterGroup` resource produced by the factories: construct
id, resolved name, description, parameters and engine. -/
structure ParameterGroupResource where
  id : String
  name : String
  description : String
  parameters : List (String × String)
  engine : ClusterEngine
deriving DecidableEq, Repr

/-- Embedding of `createClusterParameterGroup` (`aurora-helpers.ts`).
`props.clusterParameters?.engine ?? props.engine` is nullish
coalescing, `props.clusterParameters?.name || derived` falls back on
`undefined` and on the empty string, and `?.parameters || {}` only
replaces `undefined` (an empty object is truthy, and both give `{}`). -/
def createClusterParameterGroup (props : ClusterProps) : ParameterGroupResource :=
  let engine := (props.clusterParameters.bind (fun p => p.engine)).getD props.engine
  let engineFamily := getEngineFamily engine
  let engineVersion := getEngineVersion engine
  let paramGroupName := jsOrString (props.clusterParameters.bind (fun p => p.name))
    (props.clusterName ++ "-cluster-" ++ engineFamily ++ "-" ++ engineVersion)
  let description := jsOrString (props.clusterParameters.bind (fun p => p.description))
    ("Cluster parameter group for " ++ props.clusterName ++ " (" ++ engineFamily ++ " " ++ engineVersion ++ ")")
  let id := props.clusterName ++ "-ClusterParams-" ++ engineFamily ++ "-" ++ engineVersion
  { id := id
    name := replaceDots paramGroupName
    description := description
    parameters := (props.clusterParameters.bind (fun p => p.parameters)).getD []
    engine := engine }

/-- Embedding of `createInstanceParameterGroup` (`aurora-helpers.ts`):
identical to the cluster factory with the `instance` literal and the
`instanceParameters` field. -/
def createInstanceParameterGroup (props : ClusterProps) : ParameterGroupResource :=
  let engine := (props.instanceParameters.bind (fun p => p.engine)).getD props.engine
  let engineFamily := getEngineFamily engine
  let engineVersion := getEngineVersion engine
  let paramGroupName := jsOrString (props.instanceParameters.bind (fun p => p.name))
    (props.clusterName ++ "-instance-" ++ engineFamily ++ "-" ++ engineVersion)
  let description := jsOrString (props.instanceParameters.bind (fun p => p.description))
    ("Instance parameter group for " ++ props.clusterName ++ " (" ++ engineFamily ++ " " ++ engineVersion ++ ")")
  let id := props.clusterName ++ "-InstanceParams-" ++ engineFamily ++ "-" ++ engineVersion
  { id := id
    name := replaceDots paramGroupName
    description := description
    parameters := (props.instanceParameters.bind (fun p => p.parameters)).getD []
    engine := engine }

/-- One reader produced by `ClusterInstance.provisioned` inside
`createClusterReaders`. -/
structure Reader where
  id : String
  instanceType : InstanceType
  instanceIdentifier : String
  publiclyAccessible : Bool
  allowMajorVersionUpgrade : Bool
  parameterGroupName : String
deriving DecidableEq, Repr

/-- Embedding of `createClusterReaders` (`aurora-helpers.ts`):
`readerInstanceCount || 0` maps `undefined` and `0` to `0` and keeps any
other number, so at `Int` it is `getD 0`; the loop runs only when the
count is positive and an instance type is present. -/
def createClusterReaders (props : ClusterProps) (instanceParameterGroup : ParameterGroupResource) :
    List Reader :=
  let readerCount : Int := (props.readersConfig.bind (fun r => r.readerInstanceCount)).getD 0
  if 0 < readerCount then
    match props.readersConfig.bind (fun r => r.instanceType) with
    | some t =>
      (List.range readerCount.toNat).map (fun i =>
        { id := "reader" ++ toString i
          instanceType := t
          instanceIdentifier := props.clusterName ++ "-reader-" ++ toString i
          publiclyAccessible := false
          allowMajorVersionUpgrade := false
          parameterGroupName := instanceParameterGroup.name })
    | none => []
  else []

/-- An observable step of `createAuroraSecurityGroup`, in program
order: the security-group construct is created, ingress rules are
added, CIDRs are passed through `validateCidr`, and the removal policy
is applied last. -/
inductive SgEvent where
  | sgCreated (securityGroupName : String)
  | ingressRule (cidr : String) (port : Nat) (description : String)
  | validated (cidr : String)
  | removalPolicyApplied
deriving DecidableEq, Repr

/-- The `forEach` body over `allowedInboundCidrs`: each entry is
validated, then its ingress rule is added; a validation error aborts the
loop with the remaining entries unprocessed. -/
def processCidrs (port : Nat) : List String → List SgEvent × Option String
  | [] => ([], none)
  | c :: cs =>
    match validateCidr c with
    | Except.error e => ([SgEvent.validated c], some e)
    | Except.ok _ =>
      let rec2 := processCidrs port cs
      (SgEvent.validated c :: SgEvent.ingressRule c port ("Allow Aurora traffic from " ++ c) :: rec2.1,
        rec2.2)

/-- Embedding of `createAuroraSecurityGroup` (`aurora-helpers.ts`) as an
event trace plus an optional thrown error: the construct and the
VPC-CIDR rule come first, then the guarded loop over
`allowedInboundCidrs` (the `if (list && list.length > 0)` guard produces
the same trace as folding over the list, since an empty or absent list
contributes no events), and the removal policy is applied only when no
entry threw. -/
def createAuroraSecurityGroup (_id : String) (vpcCidrBlock : String) (port : Nat)
    (props : ClusterProps) : List SgEvent × Option String :=
  let pre := [SgEvent.sgCreated (props.clusterName ++ "-rds-sg"),
    SgEvent.ingressRule vpcCidrBlock port ("Allow Aurora traffic from VPC " ++ vpcCidrBlock)]
  let looped := processCidrs port (props.allowedInboundCidrs.getD [])
  match looped.2 with
  | some e => (pre ++ looped.1, some e)
  | none => (pre ++ looped.1 ++ [SgEvent.removalPolicyApplied], none)

/-- The credentials secret of the cluster: an existing secret passed in,
or a newly created one with its resolved name and description. -/
inductive SecretRef where
  | existing (secretId : String)
  | created (secretName : String) (description : String)
deriving DecidableEq, Repr

/-- The resolved cluster configuration assembled by
`createAuroraMySqlCluster` (the `commonClusterConfig` object), for the
fields the claims are about. -/
structure ClusterConfig where
  clusterIdentifier : String
  writerInstanceIdentifier : String
  readers : List Reader
  iamAuthentication : Bool
  removalPolicy : RemovalPolicy
  deletionProtection : Bool
  databaseInsightsMode : DatabaseInsightsMode
  performanceInsightRetentionMonths : Option Nat
  cloudwatchLogsExports : List String
  enableClusterLevelEnhancedMonitoring : Bool
  monitoringIntervalSeconds : Option Nat
  fromSnapshot : Bool
deriving DecidableEq, Repr

/-- The resources returned by `createAuroraMySqlCluster`. -/
structure MySqlClusterResult where
  secret : SecretRef
  config : ClusterConfig
deriving DecidableEq, Repr

/-- Embedding of `createAuroraMySqlCluster`
(`aurora-mysql-cluster.ts`), restricted to its pure configuration
logic.  JavaScript `||` on an object-typed or `Duration` operand is
`getD` (objects are truthy); on booleans `x || false` is also `getD
false`; `iamAuthentication !== undefined ? x : true` is `getD true`;
the monitoring interval is set only when enhanced monitoring is truthy;
`performanceInsightRetention` is `MONTHS_15` only when the raw prop
equals `ADVANCED`. -/
def createAuroraMySqlCluster (props : ClusterProps) : MySqlClusterResult :=
  let instanceParameterGroup := createInstanceParameterGroup props
  let secret :=
    match props.existingSecret with
    | some s => SecretRef.existing s
    | none =>
      SecretRef.created (jsOrString props.secretName (props.clusterName ++ "-credentials"))
        ("Database credentials for " ++ props.clusterName)
  { secret := secret
    config :=
      { clusterIdentifier := props.clusterName
        writerInstanceIdentifier := props.clusterName ++ "-writer"
        readers := createClusterReaders props instanceParameterGroup
        iamAuthentication := props.iamAuthentication.getD true
        removalPolicy := props.removalPolicy.getD RemovalPolicy.snapshot
        deletionProtection := props.deletionProtection.getD false
        databaseInsightsMode := props.databaseInsightsMode.getD DatabaseInsightsMode.standard
        performanceInsightRetentionMonths :=
          if props.databaseInsightsMode = some DatabaseInsightsMode.advanced then some 15 else none
        cloudwatchLogsExports := props.cloudwatchLogsExports.getD []
        enableClusterLevelEnhancedMonitoring := props.enableClusterLevelEnhancedMonitoring.getD false
        monitoringIntervalSeconds :=
          if props.enableClusterLevelEnhancedMonitoring.getD false then
            some (props.monitoringIntervalSeconds.getD 60)
          else none
        fromSnapshot := props.snapshotIdentifier.isSome } }

/-! ### Supporting lemmas -/

theorem data_append (a b : String) : (a ++ b).data = a.data ++ b.data := rfl

theorem data_mk (l : List Char) : (String.mk l).data = l := rfl

theorem listStarts_iff (p s : List Char) : listStarts s p = true ↔ p <+: s := by
  induction p generalizing s with
  | nil => simp [listStarts]
  | cons c cs ih =>
    cases s with
    | nil => simp [listStarts]
    | cons a as =>
      simp only [listStarts, Bool.and_eq_true, decide_eq_true_eq, ih, List.cons_prefix_cons]
      exact ⟨fun ⟨h1, h2⟩ => ⟨h1.symm, h2⟩, fun ⟨h1, h2⟩ => ⟨h1.symm, h2⟩⟩

theorem listHasSeg_iff (p s : List Char) : listHasSeg p s = true ↔ p <:+: s := by
  induction s with
  | nil =>
    simp only [listHasSeg, listStarts_iff, List.prefix_nil, List.infix_nil]
  | cons a as ih =>
    simp only [listHasSeg, Bool.or_eq_true, listStarts_iff, ih, List.infix_cons_iff]

theorem strIncludes_iff (s p : String) : strIncludes s p = true ↔ p.data <:+: s.data := by
  rw [strIncludes, listHasSeg_iff]

theorem takeWhile_append_not (p : Char → Bool) (l : List Char) (c : Char) (t : List Char)
    (hl : ∀ x ∈ l, p x = true) (hc : p c = false) :
    (l ++ c :: t).takeWhile p = l ∧ (l ++ c :: t).dropWhile p = c :: t := by
  induction l with
  | nil => simp [List.takeWhile_cons, List.dropWhile_cons, hc]
  | cons a as ih =>
    have ha := hl a (by simp)
    have h2 := ih (fun x hx => hl x (by simp [hx]))
    simp [List.takeWhile_cons, List.dropWhile_cons, ha, h2.1, h2.2]

theorem takeWhile_all (p : Char → Bool) (l : List Char) (hl : ∀ x ∈ l, p x = true) :
    l.takeWhile p = l := by
  induction l with
  | nil => rfl
  | cons a as ih =>
    have ha := hl a (by simp)
    simp [List.takeWhile_cons, ha, ih (fun x hx => hl x (by simp [hx]))]

theorem dropWhile_head_not (p : Char → Bool) (l : List Char) (c : Char) (t : List Char)
    (h : l.dropWhile p = c :: t) : p c = false := by
  induction l with
  | nil => simp [List.dropWhile] at h
  | cons a as ih =>
    rw [List.dropWhile_cons] at h
    by_cases hp : p a = true
    · rw [if_pos hp] at h; exact ih h
    · rw [if_neg hp] at h
      cases h
      exact Bool.not_eq_true _ ▸ hp

/-- The claim-side reading of "the CIDR ends in a numeric suffix `/N`":
a nonempty all-digit run `ds`, preceded by a literal slash, closes the
string. -/
def EndsInNumericSuffix (cidr : String) (ds : List Char) : Prop :=
  ds ≠ [] ∧ (∀ c ∈ ds, c.isDigit = true) ∧ ∃ rest, cidr.data = rest ++ '/' :: ds

theorem cidrSuffixDigits_some_iff (cidr : String) (ds : List Char) :
    cidrSuffixDigits cidr = some ds ↔ EndsInNumericSuffix cidr ds := by
  constructor
  · intro h
    simp only [cidrSuffixDigits] at h
    by_cases he : (cidr.data.reverse.takeWhile (fun c => c.isDigit)).isEmpty
    · rw [if_pos he] at h; exact absurd h (by simp)
    · rw [if_neg he] at h
      split at h
      rotate_left
      · exact absurd h (by simp)
      · rename_i t hdw
        have hds : ds = (cidr.data.reverse.takeWhile (fun c => c.isDigit)).reverse := by
          exact (Option.some.injEq _ _ ▸ h).symm
        refine ⟨?_, ?_, t.reverse, ?_⟩
        · intro hnil
          rw [hds] at hnil
          exact he (by simpa [List.isEmpty_iff] using List.reverse_eq_nil_iff.mp hnil)
        · intro x hx
          rw [hds, List.mem_reverse] at hx
          exact List.mem_takeWhile_imp hx
        · have hsplit := List.takeWhile_append_dropWhile (p := fun c => c.isDigit)
            (l := cidr.data.reverse)
          calc cidr.data = cidr.data.reverse.reverse := (List.reverse_reverse _).symm
            _ = ((cidr.data.reverse.takeWhile (fun c => c.isDigit)) ++
                  (cidr.data.reverse.dropWhile (fun c => c.isDigit))).reverse := by rw [hsplit]
            _ = t.reverse ++ '/' :: ds := by
                rw [hdw, List.reverse_append, List.reverse_cons, hds]
                simp
  · rintro ⟨hne, hdig, rest, hdecomp⟩
    have hall : ∀ x ∈ ds.reverse, (fun c => c.isDigit) x = true := by
      intro x hx; exact hdig x (List.mem_reverse.mp hx)
    have hrev : cidr.data.reverse = ds.reverse ++ '/' :: rest.reverse := by
      rw [hdecomp]; simp
    have h2 := takeWhile_append_not (fun c => c.isDigit) ds.reverse '/' rest.reverse hall (by decide)
    simp only [cidrSuffixDigits, hrev, h2.1, h2.2]
    rw [if_neg (by simpa [List.isEmpty_iff] using fun hnil => hne (List.reverse_eq_nil_iff.mp hnil))]
    simp

theorem endsInNumericSuffix_unique (cidr : String) (ds ds2 : List Char)
    (h1 : EndsInNumericSuffix cidr ds) (h2 : EndsInNumericSuffix cidr ds2) : ds = ds2 := by
  have e1 := (cidrSuffixDigits_some_iff cidr ds).mpr h1
  have e2 := (cidrSuffixDigits_some_iff cidr ds2).mpr h2
  injection e1 ▸ e2

/-- The claim-side reading of "the version string begins with a
`major.minor` numeric pattern": a nonempty digit run, a dot, a second
nonempty digit run, then anything. -/
def BeginsWithMajorMinor (v : String) : Prop :=
  ∃ d1 d2 rest, v.data = d1 ++ '.' :: (d2 ++ rest) ∧ d1 ≠ [] ∧ d2 ≠ [] ∧
    (∀ c ∈ d1, c.isDigit = true) ∧ (∀ c ∈ d2, c.isDigit = true)

theorem matchMajorMinor_eq_some (v : String) (d1 d2 rest : List Char)
    (h : v.data = d1 ++ '.' :: (d2 ++ rest)) (h1 : d1 ≠ []) (h2 : d2 ≠ [])
    (hd1 : ∀ c ∈ d1, c.isDigit = true) (hd2 : ∀ c ∈ d2, c.isDigit = true)
    (hrest : ∀ c t, rest = c :: t → c.isDigit = false) :
    matchMajorMinor v = some (String.mk d1, String.mk d2) := by
  have hsplit1 := takeWhile_append_not (fun c => c.isDigit) d1 '.' (d2 ++ rest)
    (fun x hx => hd1 x hx) (by decide)
  have htake2 : (d2 ++ rest).takeWhile (fun c => c.isDigit) = d2 := by
    cases hr : rest with
    | nil => rw [List.append_nil]; exact takeWhile_all _ _ (fun x hx => hd2 x hx)
    | cons c t => exact (takeWhile_append_not (fun c => c.isDigit) d2 c t
        (fun x hx => hd2 x hx) (hrest c t hr)).1
  simp only [matchMajorMinor, h, hsplit1.1, hsplit1.2, htake2]
  rw [if_neg (by simpa [List.isEmpty_iff] using h1)]
  rw [if_neg (by simpa [List.isEmpty_iff] using h2)]

theorem matchMajorMinor_some_begins (v : String) (m1 m2 : String)
    (h : matchMajorMinor v = some (m1, m2)) : BeginsWithMajorMinor v := by
  simp only [matchMajorMinor] at h
  by_cases he : (v.data.takeWhile (fun c => c.isDigit)).isEmpty
  · rw [if_pos he] at h; exact absurd h (by simp)
  · rw [if_neg he] at h
    split at h
    rotate_left
    · exact absurd h (by simp)
    · rename_i rest2 hdw
      by_cases he2 : (rest2.takeWhile (fun c => c.isDigit)).isEmpty
      · rw [if_pos he2] at h; exact absurd h (by simp)
      · refine ⟨v.data.takeWhile (fun c => c.isDigit), rest2.takeWhile (fun c => c.isDigit),
          rest2.dropWhile (fun c => c.isDigit), ?_, ?_, ?_, ?_, ?_⟩
        · conv_lhs => rw [← List.takeWhile_append_dropWhile (p := fun c => c.isDigit) (l := v.data)]
          rw [hdw, List.takeWhile_append_dropWhile]
        · simpa [List.isEmpty_iff] using he
        · simpa [List.isEmpty_iff] using he2
        · exact fun x hx => List.mem_takeWhile_imp hx
        · exact fun x hx => List.mem_takeWhile_imp hx

/-- The claim-side CIDR rejection predicate: the literal unrestricted
range, or a trailing numeric prefix length below 16. -/
def ViolatesCidrPolicy (cidr : String) : Prop :=
  cidr = "0.0.0.0/0" ∨ ∃ ds, EndsInNumericSuffix cidr ds ∧ parseDigits ds < 16

theorem strIncludes_of_parts (e p : String) (x y : List Char)
    (h : e.data = x ++ p.data ++ y) : strIncludes e p = true := by
  rw [strIncludes_iff]
  exact ⟨x, y, h.symm⟩

/-- Claim C2: `validateCidr` errors exactly on `0.0.0.0/0` and on a
trailing numeric `/N` suffix with value below 16, with the documented
messages, and accepts every other string. -/
theorem c2_validateCidr_characterization (cidr : String) :
    (validateCidr cidr = Except.ok () ↔ ¬ ViolatesCidrPolicy cidr) ∧
    (cidr = "0.0.0.0/0" →
      ∃ e, validateCidr cidr = Except.error e ∧ strIncludes e "open to the internet" = true) ∧
    (∀ ds, cidr ≠ "0.0.0.0/0" → EndsInNumericSuffix cidr ds → parseDigits ds < 16 →
      ∃ e, validateCidr cidr = Except.error e ∧ strIncludes e cidr = true ∧
        strIncludes e ("/" ++ toString (parseDigits ds)) = true ∧
        strIncludes e "less restrictive than /16" = true) := by
  by_cases h0 : cidr = "0.0.0.0/0"
  · subst h0
    refine ⟨?_, ?_, ?_⟩
    · simp [validateCidr, ViolatesCidrPolicy]
    · intro _
      refine ⟨"Security violation: CIDR 0.0.0.0/0 (open to the internet) is not allowed for RDS security groups", rfl, by decide⟩
    · intro ds hne _ _
      exact absurd rfl hne
  · rcases hsfx : cidrSuffixDigits cidr with _ | ds
    · have hok : validateCidr cidr = Except.ok () := by
        rw [validateCidr, if_neg h0, hsfx]
      refine ⟨?_, fun h => absurd h h0, ?_⟩
      · rw [hok]
        simp only [true_iff]
        rintro (h | ⟨ds, hEnds, _⟩)
        · exact h0 h
        · rw [(cidrSuffixDigits_some_iff cidr ds).mpr hEnds] at hsfx
          exact absurd hsfx (by simp)
      · intro ds _ hEnds _
        rw [(cidrSuffixDigits_some_iff cidr ds).mpr hEnds] at hsfx
        exact absurd hsfx (by simp)
    · have hEnds : EndsInNumericSuffix cidr ds := (cidrSuffixDigits_some_iff cidr ds).mp hsfx
      by_cases hp : parseDigits ds < 16
      · have herr : validateCidr cidr = Except.error
            ("Security violation: CIDR " ++ cidr ++ " has prefix /" ++ toString (parseDigits ds) ++
              " which is less restrictive than /16. Only /16 or more restrictive (higher number) CIDRs are allowed.") := by
          rw [validateCidr, if_neg h0, hsfx]
          simp only [if_pos hp]
        refine ⟨?_, fun h => absurd h h0, ?_⟩
        · rw [herr]
          constructor
          · intro h; exact absurd h (by simp)
          · intro h; exact absurd (Or.inr ⟨ds, hEnds, hp⟩) h
        · intro ds2 _ hEnds2 _
          have hds2 : ds2 = ds := endsInNumericSuffix_unique cidr ds2 ds hEnds2 hEnds
          subst hds2
          refine ⟨_, herr, ?_, ?_, ?_⟩
          · exact strIncludes_of_parts _ _ ("Security violation: CIDR " : String).data
              ((" has prefix /" : String).data ++ (toString (parseDigits ds2)).data ++
                (" which is less restrictive than /16. Only /16 or more restrictive (higher number) CIDRs are allowed." : String).data)
              (by simp [data_append, List.append_assoc])
          · refine strIncludes_of_parts _ _
              (("Security violation: CIDR " : String).data ++ cidr.data ++ (" has prefix " : String).data)
              ((" which is less restrictive than /16. Only /16 or more restrictive (higher number) CIDRs are allowed." : String).data) ?_
            have hs2 : (" has prefix /" : String).data = (" has prefix " : String).data ++ ['/'] := by decide
            simp [data_append, hs2, List.append_assoc]
          · refine strIncludes_of_parts _ _
              (("Security violation: CIDR " : String).data ++ cidr.data ++ (" has prefix /" : String).data ++
                (toString (parseDigits ds2)).data ++ (" which is " : String).data)
              ((". Only /16 or more restrictive (higher number) CIDRs are allowed." : String).data) ?_
            have hs3 : (" which is less restrictive than /16. Only /16 or more restrictive (higher number) CIDRs are allowed." : String).data =
                (" which is " : String).data ++ ("less restrictive than /16" : String).data ++
                  (". Only /16 or more restrictive (higher number) CIDRs are allowed." : String).data := by decide
            simp [data_append, hs3, List.append_assoc]
      · have hok : validateCidr cidr = Except.ok () := by
          rw [validateCidr, if_neg h0, hsfx]
          simp only [if_neg hp]
        refine ⟨?_, fun h => absurd h h0, ?_⟩
        · rw [hok]
          simp only [true_iff]
          rintro (h | ⟨ds2, hEnds2, hp2⟩)
          · exact h0 h
          · exact hp (endsInNumericSuffix_unique cidr ds2 ds hEnds2 hEnds ▸ hp2)
        · intro ds2 _ hEnds2 hp2
          exact absurd (endsInNumericSuffix_unique cidr ds2 ds hEnds2 hEnds ▸ hp2) hp

theorem replaceDots_ne_of_mem (s : String) (h : '.' ∈ s.data) : replaceDots s ≠ s := by
  intro heq
  have hmem : '.' ∈ (replaceDots s).data := by rw [heq]; exact h
  rw [replaceDots, data_mk, List.mem_map] at hmem
  obtain ⟨a, _, hfa⟩ := hmem
  by_cases hca : a = '.'
  · rw [if_pos hca] at hfa; exact absurd hfa (by decide)
  · rw [if_neg hca] at hfa; exact hca hfa

/-- The spec example engine: Aurora MySQL, full version `3.09.0`. -/
def mysql309Engine : ClusterEngine := ⟨"aurora-mysql", some ⟨some "3.09.0"⟩⟩

/-- The spec example props: cluster `test`, the example engine, and no
explicit parameter-group configuration. -/
def testClusterProps : ClusterProps := { engine := mysql309Engine, clusterName := "test" }

/-! ### Claims -/

/-- Claim C1: when `clusterParameters.name` (resp.
`instanceParameters.name`) is absent, the parameter-group name is
derived as `{clusterName}-cluster-{engineFamily}-{engineVersionToken}`
(resp. with `instance`) with every literal dot replaced by a hyphen;
cluster `test`, family `aurora-mysql`, engine version `3.09.0` yield the
cluster parameter-group name `test-cluster-aurora-mysql-3-09`. -/
theorem c1_derived_parameter_group_names (props : ClusterProps) :
    (props.clusterParameters.bind (fun p => p.name) = none →
      (createClusterParameterGroup props).name =
        replaceDots (props.clusterName ++ "-cluster-" ++
          getEngineFamily ((props.clusterParameters.bind (fun p => p.engine)).getD props.engine) ++ "-" ++
          getEngineVersion ((props.clusterParameters.bind (fun p => p.engine)).getD props.engine))) ∧
    (props.instanceParameters.bind (fun p => p.name) = none →
      (createInstanceParameterGroup props).name =
        replaceDots (props.clusterName ++ "-instance-" ++
          getEngineFamily ((props.instanceParameters.bind (fun p => p.engine)).getD props.engine) ++ "-" ++
          getEngineVersion ((props.instanceParameters.bind (fun p => p.engine)).getD props.engine))) ∧
    (createClusterParameterGroup testClusterProps).name = "test-cluster-aurora-mysql-3-09" := by
  refine ⟨?_, ?_, ?_⟩
  · intro hc; simp [createClusterParameterGroup, hc, jsOrString]
  · intro hi; simp [createInstanceParameterGroup, hi, jsOrString]
  · decide

/-- Witness for C1 at the spec example props. -/
theorem c1_witness :
    (createClusterParameterGroup testClusterProps).name =
      replaceDots (testClusterProps.clusterName ++ "-cluster-" ++
        getEngineFamily ((testClusterProps.clusterParameters.bind (fun p => p.engine)).getD testClusterProps.engine) ++ "-" ++
        getEngineVersion ((testClusterProps.clusterParameters.bind (fun p => p.engine)).getD testClusterProps.engine)) ∧
    (createInstanceParameterGroup testClusterProps).name =
      replaceDots (testClusterProps.clusterName ++ "-instance-" ++
        getEngineFamily ((testClusterProps.instanceParameters.bind (fun p => p.engine)).getD testClusterProps.engine) ++ "-" ++
        getEngineVersion ((testClusterProps.instanceParameters.bind (fun p => p.engine)).getD testClusterProps.engine)) ∧
    (createClusterParameterGroup testClusterProps).name = "test-cluster-aurora-mysql-3-09" :=
  ⟨(c1_derived_parameter_group_names testClusterProps).1 rfl,
   (c1_derived_parameter_group_names testClusterProps).2.1 rfl,
   (c1_derived_parameter_group_names testClusterProps).2.2⟩

/-- Claim C7: the derived parameter-group name and construct identifier
are deterministic functions of `(clusterName, parameter-group config,
engine)`: two evaluations on inputs agreeing on those fields give
byte-identical strings. -/
theorem c7_deterministic_derivation (p q : ClusterProps)
    (hn : p.clusterName = q.clusterName) (he : p.engine = q.engine)
    (hc : p.clusterParameters = q.clusterParameters)
    (hi : p.instanceParameters = q.instanceParameters) :
    ((createClusterParameterGroup p).name = (createClusterParameterGroup q).name ∧
     (createClusterParameterGroup p).id = (createClusterParameterGroup q).id) ∧
    ((createInstanceParameterGroup p).name = (createInstanceParameterGroup q).name ∧
     (createInstanceParameterGroup p).id = (createInstanceParameterGroup q).id) := by
  refine ⟨⟨?_, ?_⟩, ?_, ?_⟩ <;>
    simp [createClusterParameterGroup, createInstanceParameterGroup, hn, he, hc, hi]

/-- Props pairs for the C7 witness, equal on the naming inputs and
different elsewhere. -/
def c7PropsA : ClusterProps := { engine := mysql309Engine, clusterName := "test", databaseName := "a" }

/-- Second props record of the C7 witness pair. -/
def c7PropsB : ClusterProps := { engine := mysql309Engine, clusterName := "test", databaseName := "b" }

/-- Witness for C7 at two concrete synthesis inputs. -/
theorem c7_witness :
    ((createClusterParameterGroup c7PropsA).name = (createClusterParameterGroup c7PropsB).name ∧
     (createClusterParameterGroup c7PropsA).id = (createClusterParameterGroup c7PropsB).id) ∧
    ((createInstanceParameterGroup c7PropsA).name = (createInstanceParameterGroup c7PropsB).name ∧
     (createInstanceParameterGroup c7PropsA).id = (createInstanceParameterGroup c7PropsB).id) :=
  c7_deterministic_derivation c7PropsA c7PropsB rfl rfl rfl rfl

/-- Claim C8: the dot-to-hyphen replacement also applies to explicit
caller-supplied parameter-group names, so an explicit name with dots
silently yields a different resource name. -/
theorem c8_explicit_names_also_rewritten (props : ClusterProps) :
    (∀ s, props.clusterParameters.bind (fun p => p.name) = some s → s ≠ "" →
      (createClusterParameterGroup props).name = replaceDots s ∧
      ('.' ∈ s.data → (createClusterParameterGroup props).name ≠ s)) ∧
    (∀ s, props.instanceParameters.bind (fun p => p.name) = some s → s ≠ "" →
      (createInstanceParameterGroup props).name = replaceDots s ∧
      ('.' ∈ s.data → (createInstanceParameterGroup props).name ≠ s)) := by
  constructor
  · intro s hs hne
    have h1 : (createClusterParameterGroup props).name = replaceDots s := by
      simp [createClusterParameterGroup, hs, jsOrString, hne]
    exact ⟨h1, fun hdot => by rw [h1]; exact replaceDots_ne_of_mem s hdot⟩
  · intro s hs hne
    have h1 : (createInstanceParameterGroup props).name = replaceDots s := by
      simp [createInstanceParameterGroup, hs, jsOrString, hne]
    exact ⟨h1, fun hdot => by rw [h1]; exact replaceDots_ne_of_mem s hdot⟩

/-- Props with explicit dotted parameter-group names, for the C8
witness. -/
def dottedNameProps : ClusterProps :=
  { engine := mysql309Engine, clusterName := "test",
    clusterParameters := some { name := some "my.params" },
    instanceParameters := some { name := some "inst.params" } }

/-- Witness for C8 at concrete dotted explicit names. -/
theorem c8_witness :
    ((createClusterParameterGroup dottedNameProps).name = replaceDots "my.params" ∧
      ('.' ∈ ("my.params" : String).data →
        (createClusterParameterGroup dottedNameProps).name ≠ "my.params")) ∧
    ((createInstanceParameterGroup dottedNameProps).name = replaceDots "inst.params" ∧
      ('.' ∈ ("inst.params" : String).data →
        (createInstanceParameterGroup dottedNameProps).name ≠ "inst.params")) :=
  ⟨(c8_explicit_names_also_rewritten dottedNameProps).1 "my.params" rfl (by decide),
   (c8_explicit_names_also_rewritten dottedNameProps).2 "inst.params" rfl (by decide)⟩

/-- Witness for C2 at the spec example CIDR `10.0.0.0/8`. -/
theorem c2_witness :
    ∃ e, validateCidr "10.0.0.0/8" = Except.error e ∧ strIncludes e "10.0.0.0/8" = true ∧
      strIncludes e ("/" ++ toString (parseDigits ['8'])) = true ∧
      strIncludes e "less restrictive than /16" = true :=
  (c2_validateCidr_characterization "10.0.0.0/8").2.2 ['8'] (by decide)
    ⟨by decide, by decide, ("10.0.0.0" : String).data, by decide⟩ (by decide)

/-- Claim C5: `getEngineVersion` returns `{major}-{minor}` exactly when
the full version string begins with a `major.minor` numeric pattern,
and the literal `"unknown"` otherwise (in particular when the version
is absent), never raising; `getEngineFamily` normalizes to one of the
two recognized families and passes unrecognized engine types through
verbatim. -/
theorem c5_engine_version_and_family (engine : ClusterEngine) :
    (∀ v d1 d2 rest, engine.engineVersion.bind (fun e => e.fullVersion) = some v →
      v.data = d1 ++ '.' :: (d2 ++ rest) → d1 ≠ [] → d2 ≠ [] →
      (∀ c ∈ d1, c.isDigit = true) → (∀ c ∈ d2, c.isDigit = true) →
      (∀ c t, rest = c :: t → c.isDigit = false) →
      getEngineVersion engine = String.mk d1 ++ "-" ++ String.mk d2) ∧
    (∀ v, engine.engineVersion.bind (fun e => e.fullVersion) = some v →
      ¬ BeginsWithMajorMinor v → getEngineVersion engine = "unknown") ∧
    (engine.engineVersion.bind (fun e => e.fullVersion) = none →
      getEngineVersion engine = "unknown") ∧
    (strIncludes engine.engineType "aurora-mysql" = true →
      getEngineFamily engine = "aurora-mysql") ∧
    (strIncludes engine.engineType "aurora-mysql" = false →
      strIncludes engine.engineType "aurora-postgres" = true →
      getEngineFamily engine = "aurora-postgresql") ∧
    (strIncludes engine.engineType "aurora-mysql" = false →
      strIncludes engine.engineType "aurora-postgres" = false →
      getEngineFamily engine = engine.engineType) := by
  refine ⟨?_, ?_, ?_, ?_, ?_, ?_⟩
  · intro v d1 d2 rest hv hdecomp h1 h2 hd1 hd2 hrest
    simp only [getEngineVersion, hv,
      matchMajorMinor_eq_some v d1 d2 rest hdecomp h1 h2 hd1 hd2 hrest]
  · intro v hv hno
    rcases hm : matchMajorMinor v with _ | ⟨m1, m2⟩
    · simp only [getEngineVersion, hv, hm]
    · exact absurd (matchMajorMinor_some_begins v m1 m2 hm) hno
  · intro hv
    simp only [getEngineVersion, hv]
  · intro hm
    rw [getEngineFamily]
    simp only [hm, if_true]
  · intro hm hp
    rw [getEngineFamily]
    simp only [hm, Bool.false_eq_true, if_false, hp, Bool.or_true, if_true]
  · intro hm hp
    have hpl : strIncludes engine.engineType "aurora-postgresql" = false := by
      by_contra hx
      have hx2 : strIncludes engine.engineType "aurora-postgresql" = true := by
        revert hx; cases strIncludes engine.engineType "aurora-postgresql" <;> simp
      have hinf : ("aurora-postgres" : String).data <:+: engine.engineType.data :=
        List.IsInfix.trans (by decide) ((strIncludes_iff _ _).mp hx2)
      rw [(strIncludes_iff _ _).mpr hinf] at hp
      exact absurd hp (by simp)
    rw [getEngineFamily]
    simp only [hm, Bool.false_eq_true, if_false, hp, hpl, Bool.or_false, if_false]

/-- Witness for C5 at the spec example engine. -/
theorem c5_witness :
    getEngineVersion mysql309Engine = String.mk ['3'] ++ "-" ++ String.mk ['0', '9'] ∧
    getEngineFamily mysql309Engine = "aurora-mysql" :=
  ⟨(c5_engine_version_and_family mysql309Engine).1 "3.09.0" ['3'] ['0', '9'] ['.', '0']
      rfl (by decide) (by decide) (by decide) (by decide) (by decide)
      (by intro c t h; cases h; decide),
   (c5_engine_version_and_family mysql309Engine).2.2.2.1 (by decide)⟩

/-- Claim C4: with a positive reader count and an instance type, exactly
`N` readers `reader0 .. reader{N-1}` with instance identifiers
`{clusterName}-reader-{i}` are produced; with count 0 or no instance
type, the result is the empty list. -/
theorem c4_cluster_readers (props : ClusterProps) (ipg : ParameterGroupResource) :
    (∀ n t, props.readersConfig.bind (fun r => r.readerInstanceCount) = some n → 0 < n →
      props.readersConfig.bind (fun r => r.instanceType) = some t →
      createClusterReaders props ipg =
        (List.range n.toNat).map (fun i =>
          { id := "reader" ++ toString i
            instanceType := t
            instanceIdentifier := props.clusterName ++ "-reader-" ++ toString i
            publiclyAccessible := false
            allowMajorVersionUpgrade := false
            parameterGroupName := ipg.name }) ∧
      (createClusterReaders props ipg).length = n.toNat) ∧
    ((props.readersConfig.bind (fun r => r.readerInstanceCount) = some 0 ∨
        props.readersConfig.bind (fun r => r.instanceType) = none) →
      createClusterReaders props ipg = []) := by
  constructor
  · intro n t hn hpos ht
    have heq : createClusterReaders props ipg =
        (List.range n.toNat).map (fun i =>
          { id := "reader" ++ toString i
            instanceType := t
            instanceIdentifier := props.clusterName ++ "-reader-" ++ toString i
            publiclyAccessible := false
            allowMajorVersionUpgrade := false
            parameterGroupName := ipg.name }) := by
      rw [createClusterReaders]
      simp only [hn, Option.getD_some, ht, if_pos hpos]
    exact ⟨heq, by rw [heq]; simp⟩
  · rintro (h | h)
    · rw [createClusterReaders]
      simp [h]
    · rw [createClusterReaders]
      simp only [h]
      split
      · rfl
      · rfl

/-- Props with two readers, for the C4 witness. -/
def twoReaderProps : ClusterProps :=
  { engine := mysql309Engine, clusterName := "db",
    readersConfig := some { readerInstanceCount := some 2, instanceType := some ⟨"r6g.large"⟩ } }

/-- Witness for C4 at a concrete two-reader configuration. -/
theorem c4_witness :
    createClusterReaders twoReaderProps (createInstanceParameterGroup twoReaderProps) =
      (List.range (Int.toNat 2)).map (fun i =>
        { id := "reader" ++ toString i
          instanceType := ⟨"r6g.large"⟩
          instanceIdentifier := twoReaderProps.clusterName ++ "-reader-" ++ toString i
          publiclyAccessible := false
          allowMajorVersionUpgrade := false
          parameterGroupName := (createInstanceParameterGroup twoReaderProps).name }) ∧
    (createClusterReaders twoReaderProps (createInstanceParameterGroup twoReaderProps)).length =
      Int.toNat 2 :=
  (c4_cluster_readers twoReaderProps (createInstanceParameterGroup twoReaderProps)).1
    2 ⟨"r6g.large"⟩ rfl (by decide) rfl

/-- Claim C10: `createClusterReaders` is total; a negative or absent
reader count, and any case without a positive count plus an instance
type, yields the empty list; otherwise the length equals the reader
count. -/
theorem c10_readers_total (props : ClusterProps) (ipg : ParameterGroupResource) :
    ((props.readersConfig.bind (fun r => r.readerInstanceCount)).getD 0 < 0 →
      createClusterReaders props ipg = []) ∧
    (∀ n, props.readersConfig.bind (fun r => r.readerInstanceCount) = some n → 0 < n →
      (props.readersConfig.bind (fun r => r.instanceType)).isSome = true →
      (createClusterReaders props ipg).length = n.toNat) ∧
    (¬ (0 < (props.readersConfig.bind (fun r => r.readerInstanceCount)).getD 0 ∧
        (props.readersConfig.bind (fun r => r.instanceType)).isSome = true) →
      createClusterReaders props ipg = []) := by
  refine ⟨?_, ?_, ?_⟩
  · intro hneg
    rw [createClusterReaders]
    rw [if_neg (by omega)]
  · intro n hn hpos hsome
    rcases ht : props.readersConfig.bind (fun r => r.instanceType) with _ | t
    · rw [ht] at hsome; exact absurd hsome (by simp)
    · rw [createClusterReaders]
      simp only [hn, Option.getD_some, ht, if_pos hpos]
      simp
  · intro hnot
    rw [createClusterReaders]
    by_cases hpos : 0 < (props.readersConfig.bind (fun r => r.readerInstanceCount)).getD 0
    · rcases ht : props.readersConfig.bind (fun r => r.instanceType) with _ | t
      · rw [if_pos hpos]
      · exact absurd ⟨hpos, by rw [ht]; rfl⟩ hnot
    · rw [if_neg hpos]

/-- Props with a negative reader count, for the C10 witness. -/
def negativeReaderProps : ClusterProps :=
  { engine := mysql309Engine, clusterName := "db",
    readersConfig := some { readerInstanceCount := some (-3), instanceType := some ⟨"r6g.large"⟩ } }

/-- Witness for C10 at a concrete negative reader count. -/
theorem c10_witness :
    createClusterReaders negativeReaderProps (createInstanceParameterGroup negativeReaderProps) = [] :=
  (c10_readers_total negativeReaderProps (createInstanceParameterGroup negativeReaderProps)).1
    (by decide)

/-- Claim C6: each optional field of the MySQL cluster props defaults
independently — IAM authentication true, removal policy snapshot,
deletion protection false, standard insights tier, enhanced monitoring
off (and then no monitoring interval), zero readers — and without an
existing secret a new one named `{clusterName}-credentials` is created
unless `secretName` overrides it. -/
theorem c6_mysql_cluster_defaults (props : ClusterProps) :
    (props.iamAuthentication = none →
      (createAuroraMySqlCluster props).config.iamAuthentication = true) ∧
    (props.removalPolicy = none →
      (createAuroraMySqlCluster props).config.removalPolicy = RemovalPolicy.snapshot) ∧
    (props.deletionProtection = none →
      (createAuroraMySqlCluster props).config.deletionProtection = false) ∧
    (props.databaseInsightsMode = none →
      (createAuroraMySqlCluster props).config.databaseInsightsMode = DatabaseInsightsMode.standard) ∧
    (props.enableClusterLevelEnhancedMonitoring = none →
      (createAuroraMySqlCluster props).config.enableClusterLevelEnhancedMonitoring = false ∧
      (createAuroraMySqlCluster props).config.monitoringIntervalSeconds = none) ∧
    (props.readersConfig = none → (createAuroraMySqlCluster props).config.readers = []) ∧
    (props.existingSecret = none → props.secretName = none →
      (createAuroraMySqlCluster props).secret =
        SecretRef.created (props.clusterName ++ "-credentials")
          ("Database credentials for " ++ props.clusterName)) ∧
    (props.existingSecret = none → ∀ s, props.secretName = some s → s ≠ "" →
      (createAuroraMySqlCluster props).secret =
        SecretRef.created s ("Database credentials for " ++ props.clusterName)) := by
  refine ⟨?_, ?_, ?_, ?_, ?_, ?_, ?_, ?_⟩
  · intro h; simp [createAuroraMySqlCluster, h]
  · intro h; simp [createAuroraMySqlCluster, h]
  · intro h; simp [createAuroraMySqlCluster, h]
  · intro h; simp [createAuroraMySqlCluster, h]
  · intro h
    constructor <;> simp [createAuroraMySqlCluster, h]
  · intro h; simp [createAuroraMySqlCluster, createClusterReaders, h]
  · intro h1 h2; simp [createAuroraMySqlCluster, h1, h2, jsOrString]
  · intro h1 s h2 hne; simp [createAuroraMySqlCluster, h1, h2, jsOrString, hne]

/-- Minimal props with every optional field absent, for the C6
witness. -/
def minimalProps : ClusterProps := { engine := mysql309Engine, clusterName := "db" }

/-- Witness for C6 at the minimal props. -/
theorem c6_witness :
    (createAuroraMySqlCluster minimalProps).config.iamAuthentication = true ∧
    (createAuroraMySqlCluster minimalProps).config.removalPolicy = RemovalPolicy.snapshot ∧
    (createAuroraMySqlCluster minimalProps).config.deletionProtection = false ∧
    (createAuroraMySqlCluster minimalProps).config.databaseInsightsMode = DatabaseInsightsMode.standard ∧
    (createAuroraMySqlCluster minimalProps).config.enableClusterLevelEnhancedMonitoring = false ∧
    (createAuroraMySqlCluster minimalProps).config.monitoringIntervalSeconds = none ∧
    (createAuroraMySqlCluster minimalProps).config.readers = [] ∧
    (createAuroraMySqlCluster minimalProps).secret =
      SecretRef.created ("db" ++ "-credentials") ("Database credentials for " ++ "db") :=
  ⟨(c6_mysql_cluster_defaults minimalProps).1 rfl,
   (c6_mysql_cluster_defaults minimalProps).2.1 rfl,
   (c6_mysql_cluster_defaults minimalProps).2.2.1 rfl,
   (c6_mysql_cluster_defaults minimalProps).2.2.2.1 rfl,
   ((c6_mysql_cluster_defaults minimalProps).2.2.2.2.1 rfl).1,
   ((c6_mysql_cluster_defaults minimalProps).2.2.2.2.1 rfl).2,
   (c6_mysql_cluster_defaults minimalProps).2.2.2.2.2.1 rfl,
   (c6_mysql_cluster_defaults minimalProps).2.2.2.2.2.2.1 rfl rfl⟩

theorem validated_mem_processCidrs (port : Nat) (l : List String) (c : String)
    (h : SgEvent.validated c ∈ (processCidrs port l).1) : c ∈ l := by
  induction l with
  | nil => simp [processCidrs] at h
  | cons a as ih =>
    rcases hv : validateCidr a with e | u
    · simp only [processCidrs, hv, List.mem_singleton] at h
      cases h
      exact List.mem_cons_self _ _
    · simp only [processCidrs, hv, List.mem_cons] at h
      rcases h with h | h | h
      · cases h; exact List.mem_cons_self _ _
      · exact absurd h (by simp)
      · exact List.mem_cons_of_mem a (ih h)

/-- Claim C9: the security group always gets the VPC-CIDR ingress rule
first, before any entry of `allowedInboundCidrs` is processed, and
`validateCidr` is applied only to entries of that list, never to the
VPC CIDR itself. -/
theorem c9_vpc_rule_first_and_unvalidated (sgId vpcCidr : String) (port : Nat)
    (props : ClusterProps) :
    (∃ rest, (createAuroraSecurityGroup sgId vpcCidr port props).1 =
      SgEvent.sgCreated (props.clusterName ++ "-rds-sg") ::
      SgEvent.ingressRule vpcCidr port ("Allow Aurora traffic from VPC " ++ vpcCidr) :: rest) ∧
    (∀ c, SgEvent.validated c ∈ (createAuroraSecurityGroup sgId vpcCidr port props).1 →
      c ∈ props.allowedInboundCidrs.getD []) := by
  constructor
  · rw [createAuroraSecurityGroup]
    rcases (processCidrs port (props.allowedInboundCidrs.getD [])).2 with _ | e
    · exact ⟨_, rfl⟩
    · exact ⟨_, rfl⟩
  · intro c hc
    rw [createAuroraSecurityGroup] at hc
    rcases h2 : (processCidrs port (props.allowedInboundCidrs.getD [])).2 with _ | e <;>
      rw [h2] at hc <;>
      simp only [List.append_assoc, List.cons_append, List.nil_append, List.mem_cons,
        List.mem_append, List.mem_singleton] at hc
    · rcases hc with h | h | h | h
      · exact absurd h (by simp)
      · exact absurd h (by simp)
      · exact validated_mem_processCidrs port _ c h
      · exact absurd h (by simp)
    · rcases hc with h | h | h
      · exact absurd h (by simp)
      · exact absurd h (by simp)
      · exact validated_mem_processCidrs port _ c h

/-- Props whose allow list holds one valid entry, for the C9 witness. -/
def oneCidrProps : ClusterProps :=
  { engine := mysql309Engine, clusterName := "db",
    allowedInboundCidrs := some ["10.0.0.0/24"] }

/-- Witness for C9: the validated entry of a concrete trace belongs to
the allow list. -/
theorem c9_witness : "10.0.0.0/24" ∈ oneCidrProps.allowedInboundCidrs.getD [] :=
  (c9_vpc_rule_first_and_unvalidated "db-sg" "172.31.0.0/16" 3306 oneCidrProps).2
    "10.0.0.0/24" (by decide)

/-- Props with a single invalid CIDR entry, for the C3 counterexample. -/
def badCidrProps : ClusterProps :=
  { engine := mysql309Engine, clusterName := "db",
    allowedInboundCidrs := some ["10.0.0.0/8"] }

/-- Counterexample to C3 as stated: on an invalid allow-list entry the
call raises (the error is present), yet the security-group construct
and its VPC ingress rule have already been created at that moment. -/
theorem c3_counterexample :
    ((createAuroraSecurityGroup "db-sg" "172.31.0.0/16" 3306 badCidrProps).2).isSome = true ∧
    SgEvent.sgCreated "db-rds-sg" ∈
      (createAuroraSecurityGroup "db-sg" "172.31.0.0/16" 3306 badCidrProps).1 ∧
    SgEvent.ingressRule "172.31.0.0/16" 3306 "Allow Aurora traffic from VPC 172.31.0.0/16" ∈
      (createAuroraSecurityGroup "db-sg" "172.31.0.0/16" 3306 badCidrProps).1 := by
  decide

theorem processCidrs_append_error (port : Nat) (good rest : List String) (bad e : String)
    (hgood : ∀ c ∈ good, validateCidr c = Except.ok ())
    (hbad : validateCidr bad = Except.error e) :
    processCidrs port (good ++ bad :: rest) =
      (good.flatMap (fun c => [SgEvent.validated c,
        SgEvent.ingressRule c port ("Allow Aurora traffic from " ++ c)]) ++
        [SgEvent.validated bad], some e) := by
  induction good with
  | nil => simp [processCidrs, hbad]
  | cons a as ih =>
    have ha := hgood a (by simp)
    have h2 := ih (fun c hc => hgood c (by simp [hc]))
    simp [processCidrs, ha, h2]

/-- Claim C3, amended: an invalid entry makes the call raise at that
entry, before its own ingress rule and all later entries; but the
security-group construct, the VPC-CIDR rule and the rules of earlier
valid entries have already been created at that moment. -/
theorem c3_amended_fail_at_first_invalid (sgId vpcCidr : String) (port : Nat)
    (props : ClusterProps) (good rest : List String) (bad e : String)
    (hlist : props.allowedInboundCidrs.getD [] = good ++ bad :: rest)
    (hgood : ∀ c ∈ good, validateCidr c = Except.ok ())
    (hbad : validateCidr bad = Except.error e) :
    createAuroraSecurityGroup sgId vpcCidr port props =
      (SgEvent.sgCreated (props.clusterName ++ "-rds-sg") ::
        SgEvent.ingressRule vpcCidr port ("Allow Aurora traffic from VPC " ++ vpcCidr) ::
        (good.flatMap (fun c => [SgEvent.validated c,
          SgEvent.ingressRule c port ("Allow Aurora traffic from " ++ c)]) ++
          [SgEvent.validated bad]),
        some e) := by
  rw [createAuroraSecurityGroup, hlist, processCidrs_append_error port good rest bad e hgood hbad]
  rfl

/-- Props with one valid then one invalid entry, for the C3 witness. -/
def mixedCidrProps : ClusterProps :=
  { engine := mysql309Engine, clusterName := "db",
    allowedInboundCidrs := some ["10.0.0.0/24", "10.0.0.0/8"] }

/-- Witness for the amended C3 at a concrete mixed allow list. -/
theorem c3_witness :
    createAuroraSecurityGroup "db-sg" "172.31.0.0/16" 3306 mixedCidrProps =
      (SgEvent.sgCreated (mixedCidrProps.clusterName ++ "-rds-sg") ::
        SgEvent.ingressRule "172.31.0.0/16" 3306 ("Allow Aurora traffic from VPC " ++ "172.31.0.0/16") ::
        (["10.0.0.0/24"].flatMap (fun c => [SgEvent.validated c,
          SgEvent.ingressRule c 3306 ("Allow Aurora traffic from " ++ c)]) ++
          [SgEvent.validated "10.0.0.0/8"]),
        some "Security violation: CIDR 10.0.0.0/8 has prefix /8 which is less restrictive than /16. Only /16 or more restrictive (higher number) CIDRs are allowed.") :=
  c3_amended_fail_at_first_invalid "db-sg" "172.31.0.0/16" 3306 mixedCidrProps
    ["10.0.0.0/24"] [] "10.0.0.0/8" _ rfl
    (by intro c hc; rw [List.mem_singleton] at hc; subst hc; rfl) rfl

end Aurora
